import Mathlib

/-!
Verification of the MultiBlink LED pattern interpreter (Multi_Blink5_Neo).

The development shallowly embeds the core of the sketch:
  - the cNeoFade color interpolator (Bresenham line in RGB space):
    setFade and getNext;
  - the per-channel body of the MultiBlink finite-state-machine tick
    (tickChannel), covering the MB_SET, MB_FADE, MB_LOOP, MB_GOTO,
    MB_STOP, MB_NULL and default cases together with the common
    transition epilogue;
  - the BlinkInit scratchpad reset.

Machine integers are modelled as Nat (unsigned) or Int (signed) with
explicit reductions modulo 256 (uint8_t), 65536 (uint16_t / int16_t) and
4294967296 (uint32_t) at the points where the C types force them.
millis() inside getNext is modelled as the nowTime argument: the caller
passes now = millis() captured at the start of the tick.
Fallible code is Option-valued: setFade evaluates period / steps, which
divides by zero (undefined behavior in C++) when the two colors are
equal, so setFade returns none exactly in that case, and the tick
propagates the fault.
-/

/-- Number of state slots per table entry (const uint8_t MAX_STATE = 5). -/
def MAX_STATE : Nat := 5

/-- A FastLED CRGB value: three 8-bit components. -/
structure Color where
  r : Nat
  g : Nat
  b : Nat
deriving DecidableEq

/-- CRGB construction from a packed 32-bit color code:
r is bits 16..23, g bits 8..15, b bits 0..7. -/
def colorOfN (v : Nat) : Color :=
  { r := v / 65536 % 256, g := v / 256 % 256, b := v % 256 }

/-- uint32_t subtraction a - b, wrapping modulo 2^32. -/
def usub32 (a b : Nat) : Nat :=
  (4294967296 + a % 4294967296 - b % 4294967296) % 4294967296

/-- Conversion of a uint32_t value to int16_t (wraps to the low 16 bits,
interpreted as a signed value), as in the assignment
nextState = T.state[cs].data1. -/
def int16OfN (v : Nat) : Int :=
  let w := v % 65536
  if w < 32768 then (w : Int) else (w : Int) - 65536

/-- uint16_t uiabs(uint16_t a, uint16_t b) of cNeoFade. -/
def uiabs (a b : Nat) : Nat :=
  if a > b then a - b else b - a

/-- uint16_t max3(uint16_t x, uint16_t y, uint16_t z) of cNeoFade. -/
def max3 (x y z : Nat) : Nat :=
  let m := z
  if x > y then (if x > z then x else m)
  else (if y > z then y else m)

/-- The cNeoFade object state.  The C fields are int16_t (coordinates,
error terms, deltas, steps), int8_t (signs) and uint32_t (times).
steps is int16_t in the source but is only ever decremented when nonzero,
so its value is a natural number in [0, dMax]. -/
structure FadeSt where
  r0 : Int
  g0 : Int
  b0 : Int
  r1 : Int
  g1 : Int
  b1 : Int
  steps : Nat
  dR : Int
  dG : Int
  dB : Int
  dMax : Int
  sR : Int
  sG : Int
  sB : Int
  ended : Bool
  timeStart : Nat
  timeInterval : Nat
deriving DecidableEq

/-- cNeoFade::setFade(uint16_t period, const CRGB and rgb0, const CRGB and rgb1).
The period parameter is uint16_t, hence the reduction modulo 65536; the CRGB
components are uint8_t, hence modulo 256.  When the two colors are equal,
steps = max3(dR,dG,dB) = 0 and the statement _timeInterval = period / _steps
divides by zero, which is undefined behavior in C++: the construction is
modelled as returning none in that case. -/
def setFade (period : Nat) (rgb0 rgb1 : Color) : Option FadeSt :=
  let p := period % 65536
  let r0 := rgb0.r % 256
  let g0 := rgb0.g % 256
  let b0 := rgb0.b % 256
  let r1 := rgb1.r % 256
  let g1 := rgb1.g % 256
  let b1 := rgb1.b % 256
  let dR := uiabs r1 r0
  let sR : Int := if r0 < r1 then 1 else -1
  let dG := uiabs g1 g0
  let sG : Int := if g0 < g1 then 1 else -1
  let dB := uiabs b1 b0
  let sB : Int := if b0 < b1 then 1 else -1
  let dMax := max3 dR dG dB
  let steps := dMax
  let eoff : Nat := dMax / 2
  if steps = 0 then
    none
  else
    let ti0 := p / steps
    let ti := if ti0 = 0 then 1 else ti0
    some { r0 := (r0 : Int), g0 := (g0 : Int), b0 := (b0 : Int),
           r1 := (eoff : Int), g1 := (eoff : Int), b1 := (eoff : Int),
           steps := steps,
           dR := (dR : Int), dG := (dG : Int), dB := (dB : Int),
           dMax := (dMax : Int),
           sR := sR, sG := sG, sB := sB,
           ended := false, timeStart := 0, timeInterval := ti }

/-- bool cNeoFade::getNext(uint32_t nowTime, CRGB *rgb).
Returns the updated object state together with some color exactly when the
C function returns true (the caller only reads *rgb in that case; the final
call also writes *rgb but returns false, and the caller discards it). -/
def getNext (f : FadeSt) (nowTime : Nat) : FadeSt × Option Color :=
  if f.ended = false ∧ usub32 nowTime f.timeStart < f.timeInterval then
    (f, none)
  else
    let ts := nowTime % 4294967296
    let rgb : Color := { r := (f.r0 % 256).toNat,
                         g := (f.g0 % 256).toNat,
                         b := (f.b0 % 256).toNat }
    if f.steps = 0 then
      ({ f with ended := true, timeStart := ts }, none)
    else
      let r1 := f.r1 - f.dR
      let g1 := f.g1 - f.dG
      let b1 := f.b1 - f.dB
      ({ f with ended := false, timeStart := ts, steps := f.steps - 1,
                r1 := if r1 < 0 then r1 + f.dMax else r1,
                r0 := if r1 < 0 then f.r0 + f.sR else f.r0,
                g1 := if g1 < 0 then g1 + f.dMax else g1,
                g0 := if g1 < 0 then f.g0 + f.sG else f.g0,
                b1 := if b1 < 0 then b1 + f.dMax else b1,
                b0 := if b1 < 0 then f.b0 + f.sB else f.b0 },
       some rgb)

/-- scratchpad_t: the per-channel runtime record. -/
structure Scratch where
  enabled : Bool
  currentState : Nat
  lastWakeup : Nat
  nf : Option FadeSt
  counter : Nat
deriving DecidableEq

/-- stateDef_t: one instruction of a sequence table.  stateID holds the
state_t enum value: MB_NULL = 0, MB_SET = 1, MB_FADE = 2, MB_LOOP = 3,
MB_GOTO = 4, MB_STOP = 5; as an integer it can carry other values, which
the interpreter sends to the default case of the switch. -/
structure StateDef where
  stateID : Nat
  activeTime : Nat
  data1 : Nat
  data2 : Nat
deriving DecidableEq

/-- The body of the per-channel loop of
MultiBlink(const sequence_t *pT, scratchpad_t *pS, const uint8_t tableSize)
for one channel: ins is the active instruction T.state[cs], now the
millis() value captured at the start of the tick, led the current value of
leds[T.ledId] and dirty the needsUpdate flag.  Returns the updated
(scratchpad, led slot, needsUpdate), or none when the tick runs into the
undefined division of setFade (MB_FADE started with equal colors).
The MB_NULL case and the default case of the switch have identical bodies
(setNextState = true) and are the final else branch here. -/
def tickChannel (ins : StateDef) (now : Nat) (s : Scratch) (led : Color)
    (dirty : Bool) : Option (Scratch × Color × Bool) :=
  if s.enabled then
    let cs := s.currentState % 256
    let aT := ins.activeTime % 4294967296
    let d1 := ins.data1 % 4294967296
    let d2 := ins.data2 % 4294967296
    let timeExpired := usub32 now s.lastWakeup ≥ aT
    let step? : Option (Bool × Int × Scratch × Color × Bool) :=
      if ins.stateID = 1 then
        -- MB_SET: write the color only if it differs
        if led ≠ colorOfN d1 then some (timeExpired, -1, s, colorOfN d1, true)
        else some (timeExpired, -1, s, led, dirty)
      else if ins.stateID = 2 then
        -- MB_FADE
        if timeExpired then
          -- last step: delete the fade object and force the final color
          some (true, -1, { s with nf := none }, colorOfN d2, true)
        else
          match s.nf with
          | none =>
            -- first time: allocate and set up the fade object,
            -- set the initial color
            match setFade aT (colorOfN d1) (colorOfN d2) with
            | none => none
            | some f => some (false, -1, { s with nf := some f },
                              colorOfN d1, true)
          | some f =>
            if f.ended then some (false, -1, s, led, dirty)
            else
              let r := getNext f now
              match r.2 with
              | some rgb => some (false, -1, { s with nf := some r.1 },
                                  rgb, true)
              | none => some (false, -1, { s with nf := some r.1 },
                              led, dirty)
      else if ins.stateID = 3 then
        -- MB_LOOP
        if timeExpired then
          let cnt := (s.counter + 1) % 65536
          if d2 > cnt then
            some (false, int16OfN d1, { s with counter := cnt }, led, dirty)
          else
            some (true, -1, { s with counter := 0 }, led, dirty)
        else some (false, -1, s, led, dirty)
      else if ins.stateID = 4 then
        -- MB_GOTO
        if timeExpired then some (false, int16OfN d1, s, led, dirty)
        else some (false, -1, s, led, dirty)
      else if ins.stateID = 5 then
        -- MB_STOP
        some (false, -1, { s with enabled := false }, led, dirty)
      else
        -- MB_NULL and default: advance, no effect
        some (true, -1, s, led, dirty)
    match step? with
    | none => none
    | some (setNext, nxt0, s1, led1, dirty1) =>
      let nxt := if setNext then ((cs + 1 : Nat) : Int) else nxt0
      if nxt ≠ -1 then
        some ({ s1 with
                  lastWakeup := (s1.lastWakeup + aT) % 4294967296,
                  currentState :=
                    ((Int.tmod nxt (MAX_STATE : Int)) % 256).toNat },
              led1, dirty1)
      else some (s1, led1, dirty1)
  else some (s, led, dirty)

/-- The reset of one scratchpad entry inside BlinkInit: enabled = true,
currentState = 0, lastWakeup = now, counter = 0, and any owned fade
object is deleted and the pointer set to nullptr. -/
def resetScratch (now : Nat) (s : Scratch) : Scratch :=
  { s with enabled := true, currentState := 0,
           lastWakeup := now % 4294967296, counter := 0, nf := none }

/-- BlinkInit(scratchpad_t *pS, const uint8_t tableSize): resets every
scratchpad entry and sets needsUpdate = true. -/
def BlinkInit (now : Nat) (l : List Scratch) : List Scratch × Bool :=
  (l.map (resetScratch now), true)

lemma tmod_natCast (m n : Nat) : Int.tmod (m : Int) (n : Int) = ((m % n : Nat) : Int) := rfl

lemma pc_wrap (m : Nat) : ((Int.tmod (m : Int) (MAX_STATE : Int)) % 256).toNat = m % 5 := by
  have h1 : Int.tmod (m : Int) (MAX_STATE : Int) = ((m % 5 : Nat) : Int) := rfl
  rw [h1]
  have h2 : m % 5 < 5 := Nat.mod_lt _ (by omega)
  rw [Int.emod_eq_of_lt (by positivity) (by exact_mod_cast (by omega : m % 5 < 256))]
  exact Int.toNat_natCast _

lemma pc_wrap_nonneg (v : Int) (hv : 0 ≤ v) :
    ((Int.tmod v (MAX_STATE : Int)) % 256).toNat < MAX_STATE := by
  obtain ⟨m, rfl⟩ := Int.eq_ofNat_of_zero_le hv
  have : ((Int.tmod (m : Int) (MAX_STATE : Int)) % 256).toNat = m % 5 := pc_wrap m
  rw [this]
  show m % 5 < 5
  omega

lemma tick_disabled (ins : StateDef) (now : Nat) (s : Scratch) (led : Color)
    (dirty : Bool) (he : s.enabled = false) :
    tickChannel ins now s led dirty = some (s, led, dirty) := by
  unfold tickChannel
  rw [he]
  simp

lemma tick_set (ins : StateDef) (now : Nat) (s : Scratch) (led : Color)
    (dirty : Bool) (h : ins.stateID = 1) (he : s.enabled = true) :
    tickChannel ins now s led dirty =
      some ((if usub32 now s.lastWakeup ≥ ins.activeTime % 4294967296 then
               { s with lastWakeup :=
                          (s.lastWakeup + ins.activeTime % 4294967296) % 4294967296,
                        currentState :=
                          ((Int.tmod ((s.currentState % 256 + 1 : Nat) : Int)
                            (MAX_STATE : Int)) % 256).toNat }
             else s),
            colorOfN (ins.data1 % 4294967296),
            (if led = colorOfN (ins.data1 % 4294967296) then dirty else true)) := by
  unfold tickChannel
  rw [if_pos he, h]
  by_cases hc : led = colorOfN (ins.data1 % 4294967296) <;>
    by_cases hexp : usub32 now s.lastWakeup ≥ ins.activeTime % 4294967296 <;>
    simp [hc, hexp] <;>
    (intro hx; exact absurd hx (by omega))

lemma tick_fade_expired (ins : StateDef) (now : Nat) (s : Scratch) (led : Color)
    (dirty : Bool) (h : ins.stateID = 2) (he : s.enabled = true)
    (hexp : usub32 now s.lastWakeup ≥ ins.activeTime % 4294967296) :
    tickChannel ins now s led dirty =
      some ({ s with nf := none,
                     lastWakeup :=
                       (s.lastWakeup + ins.activeTime % 4294967296) % 4294967296,
                     currentState :=
                       ((Int.tmod ((s.currentState % 256 + 1 : Nat) : Int)
                         (MAX_STATE : Int)) % 256).toNat },
            colorOfN (ins.data2 % 4294967296), true) := by
  unfold tickChannel
  rw [if_pos he, h]
  simp [hexp] <;> (intro hx; exact absurd hx (by omega))

lemma tick_fade_fresh (ins : StateDef) (now : Nat) (s : Scratch) (led : Color)
    (dirty : Bool) (h : ins.stateID = 2) (he : s.enabled = true)
    (hexp : ¬ usub32 now s.lastWakeup ≥ ins.activeTime % 4294967296)
    (hnf : s.nf = none) :
    tickChannel ins now s led dirty =
      match setFade (ins.activeTime % 4294967296)
              (colorOfN (ins.data1 % 4294967296))
              (colorOfN (ins.data2 % 4294967296)) with
      | none => none
      | some f => some ({ s with nf := some f },
                        colorOfN (ins.data1 % 4294967296), true) := by
  unfold tickChannel
  rw [if_pos he, h]
  cases hsf : setFade (ins.activeTime % 4294967296)
      (colorOfN (ins.data1 % 4294967296))
      (colorOfN (ins.data2 % 4294967296)) <;>
    simp [hexp, hnf, hsf]

lemma tick_fade_waiting (ins : StateDef) (now : Nat) (s : Scratch) (led : Color)
    (dirty : Bool) (f : FadeSt) (h : ins.stateID = 2) (he : s.enabled = true)
    (hexp : ¬ usub32 now s.lastWakeup ≥ ins.activeTime % 4294967296)
    (hnf : s.nf = some f) (hend : f.ended = true) :
    tickChannel ins now s led dirty = some (s, led, dirty) := by
  unfold tickChannel
  rw [if_pos he, h]
  simp [hexp, hnf, hend]

lemma tick_fade_running (ins : StateDef) (now : Nat) (s : Scratch) (led : Color)
    (dirty : Bool) (f : FadeSt) (h : ins.stateID = 2) (he : s.enabled = true)
    (hexp : ¬ usub32 now s.lastWakeup ≥ ins.activeTime % 4294967296)
    (hnf : s.nf = some f) (hend : f.ended = false) :
    tickChannel ins now s led dirty =
      some ({ s with nf := some (getNext f now).1 },
            (getNext f now).2.getD led,
            if (getNext f now).2.isSome then true else dirty) := by
  unfold tickChannel
  rw [if_pos he, h]
  cases hg : (getNext f now).2 <;> simp [hexp, hnf, hend, hg]

lemma tick_loop_wait (ins : StateDef) (now : Nat) (s : Scratch) (led : Color)
    (dirty : Bool) (h : ins.stateID = 3) (he : s.enabled = true)
    (hexp : ¬ usub32 now s.lastWakeup ≥ ins.activeTime % 4294967296) :
    tickChannel ins now s led dirty = some (s, led, dirty) := by
  unfold tickChannel
  rw [if_pos he, h]
  simp [hexp]

lemma tick_loop_jump (ins : StateDef) (now : Nat) (s : Scratch) (led : Color)
    (dirty : Bool) (h : ins.stateID = 3) (he : s.enabled = true)
    (hexp : usub32 now s.lastWakeup ≥ ins.activeTime % 4294967296)
    (hcnt : ins.data2 % 4294967296 > (s.counter + 1) % 65536)
    (hj : int16OfN (ins.data1 % 4294967296) ≠ -1) :
    tickChannel ins now s led dirty =
      some ({ s with counter := (s.counter + 1) % 65536,
                     lastWakeup :=
                       (s.lastWakeup + ins.activeTime % 4294967296) % 4294967296,
                     currentState :=
                       ((Int.tmod (int16OfN (ins.data1 % 4294967296))
                         (MAX_STATE : Int)) % 256).toNat },
            led, dirty) := by
  unfold tickChannel
  rw [if_pos he, h]
  simp [hexp, hcnt, hj]

lemma tick_loop_fall (ins : StateDef) (now : Nat) (s : Scratch) (led : Color)
    (dirty : Bool) (h : ins.stateID = 3) (he : s.enabled = true)
    (hexp : usub32 now s.lastWakeup ≥ ins.activeTime % 4294967296)
    (hcnt : ¬ ins.data2 % 4294967296 > (s.counter + 1) % 65536) :
    tickChannel ins now s led dirty =
      some ({ s with counter := 0,
                     lastWakeup :=
                       (s.lastWakeup + ins.activeTime % 4294967296) % 4294967296,
                     currentState :=
                       ((Int.tmod ((s.currentState % 256 + 1 : Nat) : Int)
                         (MAX_STATE : Int)) % 256).toNat },
            led, dirty) := by
  unfold tickChannel
  rw [if_pos he, h]
  simp [hexp, hcnt] <;> (intro hx; exact absurd hx (by omega))

lemma tick_goto_wait (ins : StateDef) (now : Nat) (s : Scratch) (led : Color)
    (dirty : Bool) (h : ins.stateID = 4) (he : s.enabled = true)
    (hexp : ¬ usub32 now s.lastWakeup ≥ ins.activeTime % 4294967296) :
    tickChannel ins now s led dirty = some (s, led, dirty) := by
  unfold tickChannel
  rw [if_pos he, h]
  simp [hexp]

lemma tick_goto_jump (ins : StateDef) (now : Nat) (s : Scratch) (led : Color)
    (dirty : Bool) (h : ins.stateID = 4) (he : s.enabled = true)
    (hexp : usub32 now s.lastWakeup ≥ ins.activeTime % 4294967296)
    (hj : int16OfN (ins.data1 % 4294967296) ≠ -1) :
    tickChannel ins now s led dirty =
      some ({ s with lastWakeup :=
                       (s.lastWakeup + ins.activeTime % 4294967296) % 4294967296,
                     currentState :=
                       ((Int.tmod (int16OfN (ins.data1 % 4294967296))
                         (MAX_STATE : Int)) % 256).toNat },
            led, dirty) := by
  unfold tickChannel
  rw [if_pos he, h]
  simp [hexp, hj]

lemma tick_goto_stuck (ins : StateDef) (now : Nat) (s : Scratch) (led : Color)
    (dirty : Bool) (h : ins.stateID = 4) (he : s.enabled = true)
    (hexp : usub32 now s.lastWakeup ≥ ins.activeTime % 4294967296)
    (hj : int16OfN (ins.data1 % 4294967296) = -1) :
    tickChannel ins now s led dirty = some (s, led, dirty) := by
  unfold tickChannel
  rw [if_pos he, h]
  simp [hexp, hj]

lemma tick_stop (ins : StateDef) (now : Nat) (s : Scratch) (led : Color)
    (dirty : Bool) (h : ins.stateID = 5) (he : s.enabled = true) :
    tickChannel ins now s led dirty =
      some ({ s with enabled := false }, led, dirty) := by
  unfold tickChannel
  rw [if_pos he, h]
  simp

lemma tick_null_default (ins : StateDef) (now : Nat) (s : Scratch) (led : Color)
    (dirty : Bool)
    (h1 : ins.stateID ≠ 1) (h2 : ins.stateID ≠ 2) (h3 : ins.stateID ≠ 3)
    (h4 : ins.stateID ≠ 4) (h5 : ins.stateID ≠ 5) (he : s.enabled = true) :
    tickChannel ins now s led dirty =
      some ({ s with lastWakeup :=
                       (s.lastWakeup + ins.activeTime % 4294967296) % 4294967296,
                     currentState :=
                       ((Int.tmod ((s.currentState % 256 + 1 : Nat) : Int)
                         (MAX_STATE : Int)) % 256).toNat },
            led, dirty) := by
  unfold tickChannel
  rw [if_pos he]
  simp [h1, h2, h3, h4, h5] <;> (intro hx; exact absurd hx (by omega))

lemma tick_loop_stuck (ins : StateDef) (now : Nat) (s : Scratch) (led : Color)
    (dirty : Bool) (h : ins.stateID = 3) (he : s.enabled = true)
    (hexp : usub32 now s.lastWakeup ≥ ins.activeTime % 4294967296)
    (hcnt : ins.data2 % 4294967296 > (s.counter + 1) % 65536)
    (hj : int16OfN (ins.data1 % 4294967296) = -1) :
    tickChannel ins now s led dirty =
      some ({ s with counter := (s.counter + 1) % 65536 }, led, dirty) := by
  unfold tickChannel
  rw [if_pos he, h]
  simp [hexp, hcnt, hj]

/-- C2 (counterexample): constructing the interpolator with equal start and
end colors is not well-defined: steps = max3(dR,dG,dB) = 0 and the
per-step interval computation period / steps divides by zero (undefined
behavior in C++), modelled as a faulting construction. -/
theorem setFade_equal_colors_divides_by_zero :
    setFade 100 ⟨10, 10, 10⟩ ⟨10, 10, 10⟩ = none := by decide

/-- C2 (amended): for every construction of the interpolator whose start and
end colors differ (steps = max3 of the component deltas is nonzero), the
construction is well-defined and the per-step interval equals period
divided by steps, floored, clamped to a minimum of 1 ms.  When the colors
are equal the division period / steps divides by zero. -/
theorem setFade_distinct_colors_ok (period : Nat) (c0 c1 : Color)
    (hp : period < 65536)
    (hd : max3 (uiabs (c1.r % 256) (c0.r % 256)) (uiabs (c1.g % 256) (c0.g % 256))
          (uiabs (c1.b % 256) (c0.b % 256)) ≠ 0) :
    ∃ f, setFade period c0 c1 = some f ∧
      f.timeInterval =
        max 1 (period / max3 (uiabs (c1.r % 256) (c0.r % 256))
          (uiabs (c1.g % 256) (c0.g % 256)) (uiabs (c1.b % 256) (c0.b % 256))) := by
  simp only [setFade, Nat.mod_eq_of_lt hp, hd, if_false]
  refine ⟨_, rfl, ?_⟩
  have h1 : 1 ≤ max3 (uiabs (c1.r % 256) (c0.r % 256)) (uiabs (c1.g % 256) (c0.g % 256))
      (uiabs (c1.b % 256) (c0.b % 256)) := Nat.one_le_iff_ne_zero.mpr hd
  rcases Nat.eq_zero_or_pos (period / max3 (uiabs (c1.r % 256) (c0.r % 256))
      (uiabs (c1.g % 256) (c0.g % 256)) (uiabs (c1.b % 256) (c0.b % 256))) with hz | hz
  · simp [hz]
  · simp only [Nat.pos_iff_ne_zero.mp hz, if_false]
    exact (Nat.max_eq_right hz).symm

lemma pc_succ_lt (m : Nat) :
    ((Int.tmod ((m % 256 + 1 : Nat) : Int) (MAX_STATE : Int)) % 256).toNat < MAX_STATE := by
  rw [pc_wrap]
  show _ < 5
  omega

/-- C3 (amended): for every tick of an enabled channel whose jump operand,
truncated to int16_t, is non-negative (in particular for all well-formed
jump targets), either no state transition happens (program counter and wake
time unchanged) or the transition leaves the program counter in
[0, MAX_STATE) and advances the wake time by adding the active time of the
instruction just left (never wakeTime = now).  For jump operands whose low
16 bits read as a negative int16_t, the truncated C remainder is negative
and the defensive modulo does not keep the counter in bounds. -/
theorem transition_bounds (ins : StateDef) (now : Nat) (s : Scratch) (led : Color)
    (dirty : Bool) (s2 : Scratch) (led2 : Color) (d2 : Bool)
    (hj : ins.stateID = 3 ∨ ins.stateID = 4 → 0 ≤ int16OfN (ins.data1 % 4294967296))
    (ht : tickChannel ins now s led dirty = some (s2, led2, d2)) :
    (s2.currentState = s.currentState ∧ s2.lastWakeup = s.lastWakeup) ∨
    (s2.currentState < MAX_STATE ∧
      s2.lastWakeup = (s.lastWakeup + ins.activeTime % 4294967296) % 4294967296) := by
  by_cases he : s.enabled = true
  case neg =>
    rw [tick_disabled ins now s led dirty (by simpa using he)] at ht
    simp only [Option.some.injEq, Prod.mk.injEq] at ht
    obtain ⟨rfl, -, -⟩ := ht
    exact Or.inl ⟨rfl, rfl⟩
  case pos =>
    by_cases h1 : ins.stateID = 1
    · rw [tick_set ins now s led dirty h1 he] at ht
      simp only [Option.some.injEq, Prod.mk.injEq] at ht
      obtain ⟨rfl, -, -⟩ := ht
      by_cases hexp : usub32 now s.lastWakeup ≥ ins.activeTime % 4294967296
      · rw [if_pos hexp]
        exact Or.inr ⟨pc_succ_lt _, rfl⟩
      · rw [if_neg hexp]
        exact Or.inl ⟨rfl, rfl⟩
    by_cases h2 : ins.stateID = 2
    · by_cases hexp : usub32 now s.lastWakeup ≥ ins.activeTime % 4294967296
      · rw [tick_fade_expired ins now s led dirty h2 he hexp] at ht
        simp only [Option.some.injEq, Prod.mk.injEq] at ht
        obtain ⟨rfl, -, -⟩ := ht
        exact Or.inr ⟨pc_succ_lt _, rfl⟩
      · cases hnf : s.nf with
        | none =>
          rw [tick_fade_fresh ins now s led dirty h2 he hexp hnf] at ht
          cases hsf : setFade (ins.activeTime % 4294967296)
              (colorOfN (ins.data1 % 4294967296))
              (colorOfN (ins.data2 % 4294967296)) with
          | none => rw [hsf] at ht; cases ht
          | some f =>
            rw [hsf] at ht
            simp only [Option.some.injEq, Prod.mk.injEq] at ht
            obtain ⟨rfl, -, -⟩ := ht
            exact Or.inl ⟨rfl, rfl⟩
        | some f =>
          cases hend : f.ended with
          | true =>
            rw [tick_fade_waiting ins now s led dirty f h2 he hexp hnf hend] at ht
            simp only [Option.some.injEq, Prod.mk.injEq] at ht
            obtain ⟨rfl, -, -⟩ := ht
            exact Or.inl ⟨rfl, rfl⟩
          | false =>
            rw [tick_fade_running ins now s led dirty f h2 he hexp hnf hend] at ht
            simp only [Option.some.injEq, Prod.mk.injEq] at ht
            obtain ⟨rfl, -, -⟩ := ht
            exact Or.inl ⟨rfl, rfl⟩
    by_cases h3 : ins.stateID = 3
    · have hv : 0 ≤ int16OfN (ins.data1 % 4294967296) := hj (Or.inl h3)
      by_cases hexp : usub32 now s.lastWakeup ≥ ins.activeTime % 4294967296
      · by_cases hcnt : ins.data2 % 4294967296 > (s.counter + 1) % 65536
        · rw [tick_loop_jump ins now s led dirty h3 he hexp hcnt (by omega)] at ht
          simp only [Option.some.injEq, Prod.mk.injEq] at ht
          obtain ⟨rfl, -, -⟩ := ht
          exact Or.inr ⟨pc_wrap_nonneg _ hv, rfl⟩
        · rw [tick_loop_fall ins now s led dirty h3 he hexp hcnt] at ht
          simp only [Option.some.injEq, Prod.mk.injEq] at ht
          obtain ⟨rfl, -, -⟩ := ht
          exact Or.inr ⟨pc_succ_lt _, rfl⟩
      · rw [tick_loop_wait ins now s led dirty h3 he hexp] at ht
        simp only [Option.some.injEq, Prod.mk.injEq] at ht
        obtain ⟨rfl, -, -⟩ := ht
        exact Or.inl ⟨rfl, rfl⟩
    by_cases h4 : ins.stateID = 4
    · have hv : 0 ≤ int16OfN (ins.data1 % 4294967296) := hj (Or.inr h4)
      by_cases hexp : usub32 now s.lastWakeup ≥ ins.activeTime % 4294967296
      · rw [tick_goto_jump ins now s led dirty h4 he hexp (by omega)] at ht
        simp only [Option.some.injEq, Prod.mk.injEq] at ht
        obtain ⟨rfl, -, -⟩ := ht
        exact Or.inr ⟨pc_wrap_nonneg _ hv, rfl⟩
      · rw [tick_goto_wait ins now s led dirty h4 he hexp] at ht
        simp only [Option.some.injEq, Prod.mk.injEq] at ht
        obtain ⟨rfl, -, -⟩ := ht
        exact Or.inl ⟨rfl, rfl⟩
    by_cases h5 : ins.stateID = 5
    · rw [tick_stop ins now s led dirty h5 he] at ht
      simp only [Option.some.injEq, Prod.mk.injEq] at ht
      obtain ⟨rfl, -, -⟩ := ht
      exact Or.inl ⟨rfl, rfl⟩
    · rw [tick_null_default ins now s led dirty h1 h2 h3 h4 h5 he] at ht
      simp only [Option.some.injEq, Prod.mk.injEq] at ht
      obtain ⟨rfl, -, -⟩ := ht
      exact Or.inr ⟨pc_succ_lt _, rfl⟩

/-- C3 (counterexample): a GOTO whose jump operand is 32768 reads as the
int16_t value -32768; the truncated C remainder -32768 tmod 5 = -3 stored
into the uint8_t program counter gives 253, outside [0, MAX_STATE), while
the wake time is still advanced by the active time. -/
theorem transition_escapes_bounds :
    tickChannel ⟨4, 0, 32768, 0⟩ 0 ⟨true, 0, 0, none, 0⟩ ⟨0, 0, 0⟩ false =
      some (⟨true, 253, 0, none, 0⟩, ⟨0, 0, 0⟩, false) ∧ ¬ (253 : Nat) < MAX_STATE := by
  exact ⟨by decide, by decide⟩

theorem transition_bounds_witness :
    ((2 : Nat) = 0 ∧ (10 : Nat) = 0) ∨
    ((2 : Nat) < MAX_STATE ∧ (10 : Nat) = (0 + 10 % 4294967296) % 4294967296) :=
  transition_bounds ⟨4, 10, 7, 0⟩ 10 ⟨true, 0, 0, none, 0⟩ ⟨0, 0, 0⟩ false
    ⟨true, 2, 10, none, 0⟩ ⟨0, 0, 0⟩ false (by decide) (by decide)

/-- C1: for an enabled channel on a FADE instruction, at a tick where the
elapsed time has reached the fade duration the interpreter deletes the
owned fade object, writes exactly the end color of the fade, raises the
dirty flag and advances to the next state with wakeTime += activeTime;
at a tick where the duration has not elapsed, whenever the tick executes
(returns a result) the channel does not advance: program counter and wake
time are unchanged, also when the interpolator has already signalled that
it ended internally. -/
theorem fade_boundary_exact (ins : StateDef) (now : Nat) (s : Scratch)
    (led : Color) (dirty : Bool) (he : s.enabled = true) (h : ins.stateID = 2) :
    ((usub32 now s.lastWakeup ≥ ins.activeTime % 4294967296) →
      tickChannel ins now s led dirty =
        some ({ s with nf := none,
                       lastWakeup :=
                         (s.lastWakeup + ins.activeTime % 4294967296) % 4294967296,
                       currentState := (s.currentState % 256 + 1) % 5 },
              colorOfN (ins.data2 % 4294967296), true)) ∧
    ((usub32 now s.lastWakeup < ins.activeTime % 4294967296) →
      ∀ s2 led2 d2, tickChannel ins now s led dirty = some (s2, led2, d2) →
        s2.currentState = s.currentState ∧ s2.lastWakeup = s.lastWakeup) := by
  constructor
  · intro hexp
    rw [tick_fade_expired ins now s led dirty h he hexp, pc_wrap]
  · intro hlt s2 led2 d2 ht
    have hexp : ¬ usub32 now s.lastWakeup ≥ ins.activeTime % 4294967296 := by omega
    cases hnf : s.nf with
    | none =>
      rw [tick_fade_fresh ins now s led dirty h he hexp hnf] at ht
      cases hsf : setFade (ins.activeTime % 4294967296)
          (colorOfN (ins.data1 % 4294967296))
          (colorOfN (ins.data2 % 4294967296)) with
      | none => rw [hsf] at ht; cases ht
      | some f =>
        rw [hsf] at ht
        simp only [Option.some.injEq, Prod.mk.injEq] at ht
        obtain ⟨rfl, -, -⟩ := ht
        exact ⟨rfl, rfl⟩
    | some f =>
      cases hend : f.ended with
      | true =>
        rw [tick_fade_waiting ins now s led dirty f h he hexp hnf hend] at ht
        simp only [Option.some.injEq, Prod.mk.injEq] at ht
        obtain ⟨rfl, -, -⟩ := ht
        exact ⟨rfl, rfl⟩
      | false =>
        rw [tick_fade_running ins now s led dirty f h he hexp hnf hend] at ht
        simp only [Option.some.injEq, Prod.mk.injEq] at ht
        obtain ⟨rfl, -, -⟩ := ht
        exact ⟨rfl, rfl⟩

theorem fade_boundary_exact_witness :
    tickChannel ⟨2, 100, 5, 7⟩ 150 ⟨true, 0, 0, none, 0⟩ ⟨0, 0, 0⟩ false =
      some (⟨true, (0 % 256 + 1) % 5, (0 + 100 % 4294967296) % 4294967296, none, 0⟩,
            colorOfN (7 % 4294967296), true) :=
  (fade_boundary_exact ⟨2, 100, 5, 7⟩ 150 ⟨true, 0, 0, none, 0⟩ ⟨0, 0, 0⟩ false
    rfl rfl).1 (by decide)

/-- C4 (amended): for DO(delay, target, n) with 1 <= n <= 65535 (the loop
counter is uint16_t) and a target whose int16_t reading is not -1, the
channel visits the loop instruction exactly n times, expiries counted:
on each of the first n - 1 expiries (previous expiries counted by the
loop counter k) it jumps to the target and increments the counter, and on
the n-th expiry it resets the counter to 0 and falls through sequentially;
for n = 1 it falls through on the first expiry without ever jumping. -/
theorem loop_repeat_count (t j n cs wake k now : Nat) (nf : Option FadeSt)
    (led : Color) (dirty : Bool)
    (hn1 : 1 ≤ n) (hn2 : n ≤ 65535) (hk : k < n)
    (hjv : int16OfN (j % 4294967296) ≠ -1)
    (hexp : usub32 now wake ≥ t % 4294967296) :
    (k + 1 < n →
      tickChannel ⟨3, t, j, n⟩ now ⟨true, cs, wake, nf, k⟩ led dirty =
        some (⟨true,
               ((Int.tmod (int16OfN (j % 4294967296)) (MAX_STATE : Int)) % 256).toNat,
               (wake + t % 4294967296) % 4294967296, nf, k + 1⟩, led, dirty)) ∧
    (k + 1 = n →
      tickChannel ⟨3, t, j, n⟩ now ⟨true, cs, wake, nf, k⟩ led dirty =
        some (⟨true, (cs % 256 + 1) % 5,
               (wake + t % 4294967296) % 4294967296, nf, 0⟩, led, dirty)) := by
  constructor
  · intro hlt
    rw [tick_loop_jump ⟨3, t, j, n⟩ now ⟨true, cs, wake, nf, k⟩ led dirty rfl rfl hexp
      (by show n % 4294967296 > (k + 1) % 65536; omega) hjv]
    have hc : (k + 1) % 65536 = k + 1 := Nat.mod_eq_of_lt (by omega)
    rw [hc]
  · intro heq
    rw [tick_loop_fall ⟨3, t, j, n⟩ now ⟨true, cs, wake, nf, k⟩ led dirty rfl rfl hexp
      (by show ¬ n % 4294967296 > (k + 1) % 65536; omega), pc_wrap]

theorem loop_repeat_count_witness :
    tickChannel ⟨3, 5, 0, 2⟩ 5 ⟨true, 0, 0, none, 0⟩ ⟨0, 0, 0⟩ false =
      some (⟨true, 0, 5, none, 1⟩, ⟨0, 0, 0⟩, false) :=
  (loop_repeat_count 5 0 2 0 0 0 5 none ⟨0, 0, 0⟩ false (by decide) (by decide)
    (by decide) (by decide) (by decide)).1 (by decide)

def loopTick65536 (s : Scratch) : Scratch :=
  ((tickChannel ⟨3, 0, 0, 65536⟩ 0 s ⟨0, 0, 0⟩ false).getD (s, ⟨0, 0, 0⟩, false)).1

lemma loopTick65536_iter (m : Nat) :
    loopTick65536^[m] ⟨true, 0, 0, none, 0⟩ = ⟨true, 0, 0, none, m % 65536⟩ := by
  induction m with
  | zero => rfl
  | succ m ih =>
    rw [Function.iterate_succ_apply', ih, loopTick65536,
      tick_loop_jump ⟨3, 0, 0, 65536⟩ 0 ⟨true, 0, 0, none, m % 65536⟩ ⟨0, 0, 0⟩ false
        rfl rfl (by show usub32 0 0 ≥ 0 % 4294967296; decide)
        (by show 65536 % 4294967296 > (m % 65536 + 1) % 65536; omega)
        (by show int16OfN (0 % 4294967296) ≠ -1; decide)]
    simp only [Option.getD_some, int16OfN, Scratch.mk.injEq]
    and_intros <;> first | trivial | decide | omega

/-- C4 (counterexample): the repeat count is stored in a uint32_t operand
but counted in a uint16_t counter.  For DO(0, 0, 65536), a LOOP at state 0
jumping to itself, the claim (instantiated at n = 65536 >= 1) says the
channel falls through to state 1 on the 65536-th expiry; instead the
counter wraps to 0, the test 65536 > counter stays true, and after 65536
expiries the program counter is still 0 with the counter back at 0: the
jump is taken forever and the channel never advances sequentially. -/
theorem loop_count_wraps_at_65536 :
    loopTick65536^[65536] ⟨true, 0, 0, none, 0⟩ = ⟨true, 0, 0, none, 0⟩ ∧
      (0 : Nat) ≠ (0 % 256 + 1) % 5 := by
  refine ⟨?_, by decide⟩
  rw [loopTick65536_iter]

/-- C10: a LOOP instruction with repeat count 0, on its first expiry
(loop counter 0), increments the counter to 1, fails the jump test
0 > 1, resets the counter to 0 and advances sequentially - identically
to a repeat count of 1; the jump to the target is never taken. -/
theorem loop_zero_like_one (t j cs wake now : Nat) (nf : Option FadeSt)
    (led : Color) (dirty : Bool)
    (hexp : usub32 now wake ≥ t % 4294967296) :
    tickChannel ⟨3, t, j, 0⟩ now ⟨true, cs, wake, nf, 0⟩ led dirty =
      some (⟨true, (cs % 256 + 1) % 5, (wake + t % 4294967296) % 4294967296, nf, 0⟩,
            led, dirty) ∧
    tickChannel ⟨3, t, j, 0⟩ now ⟨true, cs, wake, nf, 0⟩ led dirty =
      tickChannel ⟨3, t, j, 1⟩ now ⟨true, cs, wake, nf, 0⟩ led dirty := by
  have h0 := tick_loop_fall ⟨3, t, j, 0⟩ now ⟨true, cs, wake, nf, 0⟩ led dirty rfl rfl
    hexp (by show ¬ 0 % 4294967296 > (0 + 1) % 65536; decide)
  have h1 := tick_loop_fall ⟨3, t, j, 1⟩ now ⟨true, cs, wake, nf, 0⟩ led dirty rfl rfl
    hexp (by show ¬ 1 % 4294967296 > (0 + 1) % 65536; decide)
  constructor
  · rw [h0, pc_wrap]
  · rw [h0, h1]

theorem loop_zero_like_one_witness :
    tickChannel ⟨3, 0, 3, 0⟩ 0 ⟨true, 0, 0, none, 0⟩ ⟨0, 0, 0⟩ false =
      some (⟨true, 1, 0, none, 0⟩, ⟨0, 0, 0⟩, false) :=
  (loop_zero_like_one 0 3 0 0 0 none ⟨0, 0, 0⟩ false (by decide)).1

/-- C5: for a SET instruction held on a tick before its time expires, the
output slot ends up holding the instruction color and the dirty flag is
raised only if the stored color differed; on every further tick while the
stored color already equals the instruction color (and the time has still
not expired) the tick is a no-op: same scratchpad, same color, dirty flag
not raised. -/
theorem set_idempotent (ins : StateDef) (now : Nat) (s : Scratch) (led : Color)
    (dirty : Bool) (he : s.enabled = true) (h : ins.stateID = 1)
    (hexp : usub32 now s.lastWakeup < ins.activeTime % 4294967296) :
    tickChannel ins now s led dirty =
      some (s, colorOfN (ins.data1 % 4294967296),
            if led = colorOfN (ins.data1 % 4294967296) then dirty else true) ∧
    (∀ now2 dirty2, usub32 now2 s.lastWakeup < ins.activeTime % 4294967296 →
      tickChannel ins now2 s (colorOfN (ins.data1 % 4294967296)) dirty2 =
        some (s, colorOfN (ins.data1 % 4294967296), dirty2)) := by
  constructor
  · rw [tick_set ins now s led dirty h he, if_neg (by omega)]
  · intro now2 dirty2 hexp2
    rw [tick_set ins now2 s (colorOfN (ins.data1 % 4294967296)) dirty2 h he,
      if_neg (by omega), if_pos rfl]

theorem set_idempotent_witness :
    tickChannel ⟨1, 100, 5, 0⟩ 50 ⟨true, 2, 0, none, 0⟩ ⟨0, 0, 9⟩ false =
      some (⟨true, 2, 0, none, 0⟩, colorOfN (5 % 4294967296),
            if (⟨0, 0, 9⟩ : Color) = colorOfN (5 % 4294967296) then false else true) :=
  (set_idempotent ⟨1, 100, 5, 0⟩ 50 ⟨true, 2, 0, none, 0⟩ ⟨0, 0, 9⟩ false rfl rfl
    (by decide)).1

/-- C6: executing STOP immediately clears the enabled flag and changes
nothing else (no color write, no wake-time update, no program-counter
change); and a channel whose enabled flag is false is skipped entirely on
every tick: scratchpad, color and dirty flag are all left untouched. -/
theorem stop_terminal (ins : StateDef) (now : Nat) (s : Scratch) (led : Color)
    (dirty : Bool) :
    (s.enabled = true → ins.stateID = 5 →
      tickChannel ins now s led dirty =
        some ({ s with enabled := false }, led, dirty)) ∧
    (s.enabled = false → tickChannel ins now s led dirty = some (s, led, dirty)) :=
  ⟨fun he h => tick_stop ins now s led dirty h he,
   fun he => tick_disabled ins now s led dirty he⟩

theorem stop_terminal_witness :
    tickChannel ⟨5, 0, 0, 0⟩ 9 ⟨true, 1, 2, none, 3⟩ ⟨4, 4, 4⟩ false =
      some (⟨false, 1, 2, none, 3⟩, ⟨4, 4, 4⟩, false) ∧
    tickChannel ⟨1, 8, 0, 0⟩ 9 ⟨false, 1, 2, none, 3⟩ ⟨4, 4, 4⟩ false =
      some (⟨false, 1, 2, none, 3⟩, ⟨4, 4, 4⟩, false) :=
  ⟨(stop_terminal ⟨5, 0, 0, 0⟩ 9 ⟨true, 1, 2, none, 3⟩ ⟨4, 4, 4⟩ false).1 rfl rfl,
   (stop_terminal ⟨1, 8, 0, 0⟩ 9 ⟨false, 1, 2, none, 3⟩ ⟨4, 4, 4⟩ false).2 rfl⟩

/-- C7: after BlinkInit, every scratchpad record of the set has
enabled = true, currentState = 0, counter = 0, lastWakeup equal to the
reset time, and owns no fade object. -/
theorem blinkInit_reset_complete (now : Nat) (l : List Scratch) (s2 : Scratch)
    (hmem : s2 ∈ (BlinkInit now l).1) :
    s2.enabled = true ∧ s2.currentState = 0 ∧ s2.counter = 0 ∧
      s2.lastWakeup = now % 4294967296 ∧ s2.nf = none := by
  simp only [BlinkInit, List.mem_map] at hmem
  obtain ⟨s0, -, rfl⟩ := hmem
  exact ⟨rfl, rfl, rfl, rfl, rfl⟩

theorem blinkInit_reset_complete_witness :
    (resetScratch 5 ⟨false, 3, 9, none, 7⟩).enabled = true ∧
    (resetScratch 5 ⟨false, 3, 9, none, 7⟩).currentState = 0 ∧
    (resetScratch 5 ⟨false, 3, 9, none, 7⟩).counter = 0 ∧
    (resetScratch 5 ⟨false, 3, 9, none, 7⟩).lastWakeup = 5 % 4294967296 ∧
    (resetScratch 5 ⟨false, 3, 9, none, 7⟩).nf = none :=
  blinkInit_reset_complete 5 [⟨false, 3, 9, none, 7⟩]
    (resetScratch 5 ⟨false, 3, 9, none, 7⟩) (by decide)

/-- C9: an enabled channel whose active instruction carries an opcode value
outside the state_t enumeration (greater than MB_STOP = 5) is handled by
the default case exactly like MB_NULL: no color write, no other effect,
and the program counter advances sequentially on that tick (with the
usual wakeTime += activeTime update). -/
theorem unknown_opcode_like_null (ins : StateDef) (now : Nat) (s : Scratch)
    (led : Color) (dirty : Bool) (he : s.enabled = true) (h : 5 < ins.stateID) :
    tickChannel ins now s led dirty =
      some ({ s with
                currentState := (s.currentState % 256 + 1) % 5,
                lastWakeup :=
                  (s.lastWakeup + ins.activeTime % 4294967296) % 4294967296 },
            led, dirty) ∧
    tickChannel ins now s led dirty =
      tickChannel ⟨0, ins.activeTime, ins.data1, ins.data2⟩ now s led dirty := by
  have e1 := tick_null_default ins now s led dirty (by omega) (by omega) (by omega)
    (by omega) (by omega) he
  have e2 := tick_null_default ⟨0, ins.activeTime, ins.data1, ins.data2⟩ now s led dirty
    (by show (0 : Nat) ≠ 1; decide) (by show (0 : Nat) ≠ 2; decide)
    (by show (0 : Nat) ≠ 3; decide) (by show (0 : Nat) ≠ 4; decide)
    (by show (0 : Nat) ≠ 5; decide) he
  constructor
  · rw [e1, pc_wrap]
  · rw [e1, e2]

theorem unknown_opcode_like_null_witness :
    tickChannel ⟨7, 10, 1, 2⟩ 0 ⟨true, 1, 0, none, 0⟩ ⟨0, 0, 0⟩ false =
      some (⟨true, 2, 10, none, 0⟩, ⟨0, 0, 0⟩, false) ∧
    tickChannel ⟨7, 10, 1, 2⟩ 0 ⟨true, 1, 0, none, 0⟩ ⟨0, 0, 0⟩ false =
      tickChannel ⟨0, 10, 1, 2⟩ 0 ⟨true, 1, 0, none, 0⟩ ⟨0, 0, 0⟩ false :=
  unknown_opcode_like_null ⟨7, 10, 1, 2⟩ 0 ⟨true, 1, 0, none, 0⟩ ⟨0, 0, 0⟩ false
    rfl (by decide)

/-- One forced step of the interpolator: getNext called at the first time
at which a full step interval has elapsed since the last emitted step. -/
def forceStep (f : FadeSt) : FadeSt × Option Color :=
  getNext f ((f.timeStart + f.timeInterval) % 4294967296)

/-- Iterate forced steps. -/
def forceRun (f : FadeSt) : Nat → FadeSt
  | 0 => f
  | k + 1 => forceRun (forceStep f).1 k

/-- Number of successful getNext results (true returns) over a run of
forced steps. -/
def forceCount (f : FadeSt) : Nat → Nat
  | 0 => 0
  | k + 1 => (if (forceStep f).2.isSome then 1 else 0) + forceCount (forceStep f).1 k

lemma usub32_forced (a d : Nat) (ha : a < 4294967296) :
    usub32 ((a + d) % 4294967296) a = d % 4294967296 := by
  unfold usub32
  omega

lemma forceStep_done (f : FadeSt) (he : f.ended = false)
    (hts : f.timeStart < 4294967296) (hti : f.timeInterval < 4294967296)
    (hs : f.steps = 0) :
    forceStep f =
      ({ f with ended := true,
                timeStart := (f.timeStart + f.timeInterval) % 4294967296 }, none) := by
  unfold forceStep getNext
  rw [if_neg (fun hc => absurd hc.2 (by rw [usub32_forced _ _ hts]; omega)),
    if_pos hs]
  simp [Nat.mod_mod_of_dvd]

lemma forceStep_next (f : FadeSt) (he : f.ended = false)
    (hts : f.timeStart < 4294967296) (hti : f.timeInterval < 4294967296)
    (hs : f.steps ≠ 0) :
    forceStep f =
      ({ f with ended := false,
                timeStart := (f.timeStart + f.timeInterval) % 4294967296,
                steps := f.steps - 1,
                r1 := if f.r1 - f.dR < 0 then f.r1 - f.dR + f.dMax else f.r1 - f.dR,
                r0 := if f.r1 - f.dR < 0 then f.r0 + f.sR else f.r0,
                g1 := if f.g1 - f.dG < 0 then f.g1 - f.dG + f.dMax else f.g1 - f.dG,
                g0 := if f.g1 - f.dG < 0 then f.g0 + f.sG else f.g0,
                b1 := if f.b1 - f.dB < 0 then f.b1 - f.dB + f.dMax else f.b1 - f.dB,
                b0 := if f.b1 - f.dB < 0 then f.b0 + f.sB else f.b0 },
       some { r := (f.r0 % 256).toNat, g := (f.g0 % 256).toNat,
              b := (f.b0 % 256).toNat }) := by
  unfold forceStep getNext
  rw [if_neg (fun hc => absurd hc.2 (by rw [usub32_forced _ _ hts]; omega)),
    if_neg hs]
  simp [Nat.mod_mod_of_dvd]

lemma forceRun_count (n : Nat) : ∀ f : FadeSt, f.ended = false → f.steps = n →
    f.timeStart < 4294967296 → f.timeInterval < 4294967296 →
    forceCount f (n + 1) = n ∧ (forceRun f (n + 1)).ended = true := by
  induction n with
  | zero =>
    intro f he hs hts hti
    rw [forceCount, forceRun, forceRun, forceStep_done f he hts hti hs]
    simp [forceCount]
  | succ n ih =>
    intro f he hs hts hti
    have hstep := forceStep_next f he hts hti (by omega)
    have h1 : (forceStep f).1.ended = false := by rw [hstep]
    have h2 : (forceStep f).1.steps = n := by
      rw [hstep]
      show f.steps - 1 = n
      omega
    have h3 : (forceStep f).1.timeStart < 4294967296 := by
      rw [hstep]
      exact Nat.mod_lt _ (by omega)
    have h4 : (forceStep f).1.timeInterval < 4294967296 := by
      rw [hstep]
      exact hti
    have hsome : (forceStep f).2.isSome = true := by rw [hstep]; rfl
    obtain ⟨hc, hr⟩ := ih (forceStep f).1 h1 h2 h3 h4
    rw [forceCount, forceRun, hsome, hc]
    exact ⟨by simp; omega, hr⟩

lemma interval_lt (p X : Nat) (hp : p < 65536) :
    (if p / X = 0 then 1 else p / X) < 4294967296 := by
  have := Nat.div_le_self p X
  split_ifs <;> omega

/-- C8: every successfully constructed interpolator has a remaining step
count equal to max3 of the absolute component deltas of its two colors;
over a run of forced steps (getNext called each time a full step interval
has elapsed) it produces exactly that many successful results and then
signals the end: the number of intermediate color values before the
terminal signal is at most (indeed exactly) max3 of the deltas, and the
interpolation terminates deterministically after exactly that many steps. -/
theorem fade_step_bound (period : Nat) (c0 c1 : Color) (f : FadeSt)
    (hsf : setFade period c0 c1 = some f) :
    f.steps = max3 (uiabs (c1.r % 256) (c0.r % 256)) (uiabs (c1.g % 256) (c0.g % 256))
        (uiabs (c1.b % 256) (c0.b % 256)) ∧
    forceCount f (f.steps + 1) = f.steps ∧
    (forceRun f (f.steps + 1)).ended = true := by
  simp only [setFade] at hsf
  by_cases hd : max3 (uiabs (c1.r % 256) (c0.r % 256)) (uiabs (c1.g % 256) (c0.g % 256))
      (uiabs (c1.b % 256) (c0.b % 256)) = 0
  · rw [if_pos hd] at hsf
    cases hsf
  · rw [if_neg hd] at hsf
    rw [Option.some.injEq] at hsf
    obtain rfl := hsf
    refine ⟨rfl, forceRun_count _ _ rfl rfl ?_ ?_⟩
    · show (0 : Nat) < 4294967296
      decide
    · exact interval_lt (period % 65536) _ (Nat.mod_lt _ (by omega))

theorem fade_step_bound_witness :
    (⟨0, 0, 0, 1, 1, 1, 2, 0, 2, 0, 2, -1, 1, -1, false, 0, 5⟩ : FadeSt).steps =
      max3 (uiabs (0 % 256) (0 % 256)) (uiabs (2 % 256) (0 % 256))
        (uiabs (0 % 256) (0 % 256)) ∧
    forceCount ⟨0, 0, 0, 1, 1, 1, 2, 0, 2, 0, 2, -1, 1, -1, false, 0, 5⟩
        ((⟨0, 0, 0, 1, 1, 1, 2, 0, 2, 0, 2, -1, 1, -1, false, 0, 5⟩ : FadeSt).steps + 1) =
      (⟨0, 0, 0, 1, 1, 1, 2, 0, 2, 0, 2, -1, 1, -1, false, 0, 5⟩ : FadeSt).steps ∧
    (forceRun ⟨0, 0, 0, 1, 1, 1, 2, 0, 2, 0, 2, -1, 1, -1, false, 0, 5⟩
        ((⟨0, 0, 0, 1, 1, 1, 2, 0, 2, 0, 2, -1, 1, -1, false, 0, 5⟩ : FadeSt).steps + 1)).ended =
      true :=
  fade_step_bound 10 ⟨0, 0, 0⟩ ⟨0, 2, 0⟩
    ⟨0, 0, 0, 1, 1, 1, 2, 0, 2, 0, 2, -1, 1, -1, false, 0, 5⟩ (by decide)

theorem setFade_distinct_colors_ok_witness :
    ∃ f, setFade 100 ⟨0, 0, 0⟩ ⟨3, 0, 0⟩ = some f ∧
      f.timeInterval = max 1 (100 / max3 (uiabs (3 % 256) (0 % 256))
        (uiabs (0 % 256) (0 % 256)) (uiabs (0 % 256) (0 % 256))) :=
  setFade_distinct_colors_ok 100 ⟨0, 0, 0⟩ ⟨3, 0, 0⟩ (by decide) (by decide)
